import Mathlib

/-!
# Verification of the pc-ble-driver-js central-role test clients

Shallow embedding of the two BLE central-role client variants of this
repository: the Blinky variant (`src/central.js`) and the UART/NUS variant
(`src/unnamed/part_000`).  Adapter callbacks are modelled by an explicit
environment `AdapterEnv` giving the result each adapter request would
deliver, and every event handler is a pure function returning its new
notification state, the ordered list of adapter operations it issues, and
whether it terminates the process (`Outcome.fatal` models `process.exit`).
-/

/-- Scan parameters passed to `adapter.startScan` and inside connect options. -/
structure ScanParams where
  active : Bool
  interval : Nat
  window : Nat
  timeout : Nat
deriving DecidableEq

/-- A GATT attribute as the adapter reports it: an opaque instance id plus a
UUID string (services, characteristics and descriptors all have this shape). -/
structure Attr where
  instanceId : Nat
  uuid : String
deriving DecidableEq

/-- Connection parameters are JS object literals; modelled as ordered
field-name/value association lists so that the presence or absence of a field
name is observable. -/
abbrev ConnParamsObj : Type := List (String × ℚ)

/-- One operation the program requests from the adapter (or, for
`addUserInputListener`, from the process), in the order issued. -/
inductive ProgramOp where
  | getServices (connId : Nat)
  | getCharacteristics (serviceId : Nat)
  | getDescriptors (charId : Nat)
  | writeDescriptorValue (descId : Nat) (value : List Nat) (ack : Bool)
  | startScan (params : ScanParams)
  | connect (address : String) (scanParams : ScanParams) (connParams : ConnParamsObj)
  | updateConnectionParameters (connId : Nat)
  | close
  | addUserInputListener (descId : Nat)
deriving DecidableEq

/-- Whether a handler lets the process live on (`ok`) or calls
`process.exit` (`fatal`). -/
inductive Outcome where
  | ok
  | fatal
deriving DecidableEq

/-- Error taxonomy of the discovery pipeline (spec section 7):
an adapter error at a level and "no match at that level" are collapsed into
the level's not-found error, exactly as both JS rejection paths are. -/
inductive DiscoveryError where
  | ServiceNotFound
  | CharacteristicNotFound
  | DescriptorNotFound
deriving DecidableEq

/-- The results the adapter would deliver to each request's callback.
`getServicesR` etc. map the queried instance id to either an error string or
the attribute list; the `...Err` fields are the errors (if any) delivered to
write / update / connect / startScan / close callbacks. -/
structure AdapterEnv where
  getServicesR : Nat → Except String (List Attr)
  getCharacteristicsR : Nat → Except String (List Attr)
  getDescriptorsR : Nat → Except String (List Attr)
  writeDescriptorValueErr : Option String
  updateConnectionParametersErr : Option String
  connectErr : Option String
  startScanErr : Option String
  closeErr : Option String

/-- The shared shape of all six discovery helpers: on adapter error reject,
otherwise iterate the returned collection and resolve the first attribute
whose UUID equals the target, rejecting when none matches. -/
def findAttrByUuid (targetUuid : String) (r : Except String (List Attr)) : Option Attr :=
  match r with
  | .error _ => none
  | .ok attrs => attrs.find? (fun a => a.uuid == targetUuid)

/-- UUID of the Client Characteristic Configuration Descriptor (both files). -/
def BLE_UUID_CCCD : String := "2902"

/-- The `else` branch shared verbatim by both variants' user-input listeners:
flip the enable bit of `notificationsEnabled` in place, then write the
2-byte value to the CCCD with `ack = false`. -/
def toggleAndWrite (descId : Nat) (s : Nat × Nat) : (Nat × Nat) × ProgramOp :=
  let s' : Nat × Nat := if s.1 ≠ 0 then (0, s.2) else (1, s.2)
  (s', ProgramOp.writeDescriptorValue descId [s'.1, s'.2] false)

namespace Blinky

def BLE_UUID_BLINKY_SERVICE : String := "000015231212EFDE1523785FEABCD123"

def LBS_UUID_BLINKY_BUTTON_CHAR : String := "000015241212EFDE1523785FEABCD123"

def LBS_UUID_BLINKY_LED_CHAR : String := "000015251212EFDE1523785FEABCD123"

/-- `connParams` object literal inside `connect`'s options (src/central.js,
lines 136-141): legacy snake_case field names only. -/
def connParams : ConnParamsObj :=
  [("min_conn_interval", (15 : ℚ)/2), ("max_conn_interval", 300),
   ("slave_latency", 0), ("conn_sup_timeout", 4000)]

/-- `scanParams` object inside `connect`'s options (src/central.js, lines 130-135). -/
def connectScanParams : ScanParams := ⟨false, 100, 50, 0⟩

/-- `scanParameters` in `startScan` (src/central.js, lines 166-171). -/
def scanParameters : ScanParams := ⟨true, 100, 50, 0⟩

/-- `discoverBlinkyService` (src/central.js, lines 16-34). -/
def discoverBlinkyService (env : AdapterEnv) (device : Attr) : Except DiscoveryError Attr :=
  match findAttrByUuid BLE_UUID_BLINKY_SERVICE (env.getServicesR device.instanceId) with
  | some s => .ok s
  | none => .error .ServiceNotFound

/-- `discoverButtonCharacteristic` (src/central.js, lines 36-54). -/
def discoverButtonCharacteristic (env : AdapterEnv) (blinkyService : Attr) :
    Except DiscoveryError Attr :=
  match findAttrByUuid LBS_UUID_BLINKY_BUTTON_CHAR
      (env.getCharacteristicsR blinkyService.instanceId) with
  | some c => .ok c
  | none => .error .CharacteristicNotFound

/-- `discoverButtonCharCCCD` (src/central.js, lines 56-74). -/
def discoverButtonCharCCCD (env : AdapterEnv) (blinkyButtonCharacteristic : Attr) :
    Except DiscoveryError Attr :=
  match findAttrByUuid BLE_UUID_CCCD
      (env.getDescriptorsR blinkyButtonCharacteristic.instanceId) with
  | some d => .ok d
  | none => .error .DescriptorNotFound

/-- The fresh `notificationsEnabled = [0, 0]` created each time
`addUserInputListener` is installed (src/central.js, line 80). -/
def notificationsEnabled : Nat × Nat := (0, 0)

/-- One `readable` keystroke handled by `addUserInputListener`
(src/central.js, lines 82-114): `q`/`Q` closes the adapter and exits,
`l`/`L` falls into an empty branch, anything else flips the notification
state and writes it to the CCCD (`ack = false`); a write error is fatal. -/
def keystroke (env : AdapterEnv) (descId : Nat) (s : Nat × Nat) (c : Char) :
    (Nat × Nat) × List ProgramOp × Outcome :=
  if c = 'q' ∨ c = 'Q' then
    (s, [ProgramOp.close], Outcome.fatal)
  else if c = 'l' ∨ c = 'L' then
    (s, [], Outcome.ok)
  else
    let r := toggleAndWrite descId s
    (r.1, [r.2],
      match env.writeDescriptorValueErr with
      | some _ => Outcome.fatal
      | none => Outcome.ok)

/-- The `deviceConnected` handler's promise chain (src/central.js, lines
198-223): the three discovery steps in order; on full success it registers
the user-input listener (no CCCD write); any discovery failure is caught,
logged and `process.exit(1)`. -/
def deviceConnectedHandler (env : AdapterEnv) (device : Attr) : List ProgramOp × Outcome :=
  match discoverBlinkyService env device with
  | .error _ => ([ProgramOp.getServices device.instanceId], Outcome.fatal)
  | .ok service =>
    match discoverButtonCharacteristic env service with
    | .error _ =>
      ([ProgramOp.getServices device.instanceId,
        ProgramOp.getCharacteristics service.instanceId], Outcome.fatal)
    | .ok ch =>
      match discoverButtonCharCCCD env ch with
      | .error _ =>
        ([ProgramOp.getServices device.instanceId,
          ProgramOp.getCharacteristics service.instanceId,
          ProgramOp.getDescriptors ch.instanceId], Outcome.fatal)
      | .ok d =>
        ([ProgramOp.getServices device.instanceId,
          ProgramOp.getCharacteristics service.instanceId,
          ProgramOp.getDescriptors ch.instanceId,
          ProgramOp.addUserInputListener d.instanceId], Outcome.ok)

/-- The adapter events the Blinky variant can receive. -/
inductive Event where
  | logMessage (severity : Nat)
  | errorEvent
  | deviceConnected (device : Attr)
  | deviceDisconnected (device : Attr)
  | deviceDiscovered (name : String) (address : String)
  | scanTimedOut
  | characteristicValueChanged (uuid : String)

/-- Event names passed to `adapter.on` in `addAdapterListener`
(src/central.js, lines 189-261): note the absence of
`connParamUpdateRequest` and `connParamUpdate`. -/
def registeredEvents : List String :=
  ["logMessage", "error", "deviceConnected", "deviceDisconnected",
   "deviceDiscovered", "scanTimedOut", "characteristicValueChanged"]

/-- Dispatch of one adapter event by the Blinky variant's listeners
(src/central.js, lines 189-261). -/
def handleEvent (env : AdapterEnv) : Event → List ProgramOp × Outcome
  | .logMessage _ => ([], Outcome.ok)
  | .errorEvent => ([], Outcome.ok)
  | .deviceConnected device => deviceConnectedHandler env device
  | .deviceDisconnected _ => ([ProgramOp.startScan scanParameters], Outcome.ok)
  | .deviceDiscovered name address =>
    if name = "Nordic_Blinky" then
      ([ProgramOp.connect address connectScanParams connParams],
        match env.connectErr with
        | some _ => Outcome.fatal
        | none => Outcome.ok)
    else ([], Outcome.ok)
  | .scanTimedOut => ([], Outcome.fatal)
  | .characteristicValueChanged _ => ([], Outcome.ok)

end Blinky

namespace Uart

def BLE_DEVICE_NAME : String := "Nordic_UART"

def BLE_UUID_NUS_SERVICE : String := "6E400001B5A3F393E0A9E50E24DCCA9E"

def LBS_UUID_NUS_TX_CHAR : String := "6E400003B5A3F393E0A9E50E24DCCA9E"

def LBS_UUID_NUS_RX_CHAR : String := "6E400002B5A3F393E0A9E50E24DCCA9E"

/-- The module-level `notificationsEnabled = [1, 0]` of the UART variant
(src/unnamed/part_000, line 19): notifications start enabled. -/
def notificationsEnabled : Nat × Nat := (1, 0)

/-- `connectionsPararms` (sic, src/unnamed/part_000, lines 22-31): both the
legacy snake_case and the current camelCase field names, populated with the
same numeric values. -/
def connectionsPararms : ConnParamsObj :=
  [("min_conn_interval", (15 : ℚ)/2), ("minConnectionInterval", (15 : ℚ)/2),
   ("max_conn_interval", 300), ("maxConnectionInterval", 300),
   ("slave_latency", 0), ("slaveLatency", 0),
   ("conn_sup_timeout", 4000), ("connectionSupervisionTimeout", 4000)]

/-- `scanParams` inside `connect`'s options (src/unnamed/part_000, lines 175-180). -/
def connectScanParams : ScanParams := ⟨false, 100, 50, 0⟩

/-- `scanParameters` in `startScan` (src/unnamed/part_000, lines 199-204). -/
def scanParameters : ScanParams := ⟨true, 100, 50, 0⟩

/-- `discoverNusService` (src/unnamed/part_000, lines 33-51). -/
def discoverNusService (env : AdapterEnv) (device : Attr) : Except DiscoveryError Attr :=
  match findAttrByUuid BLE_UUID_NUS_SERVICE (env.getServicesR device.instanceId) with
  | some s => .ok s
  | none => .error .ServiceNotFound

/-- `discoverTxCharacteristic` (src/unnamed/part_000, lines 53-71). -/
def discoverTxCharacteristic (env : AdapterEnv) (nusService : Attr) :
    Except DiscoveryError Attr :=
  match findAttrByUuid LBS_UUID_NUS_TX_CHAR
      (env.getCharacteristicsR nusService.instanceId) with
  | some c => .ok c
  | none => .error .CharacteristicNotFound

/-- `discoverTxCharCCCD` (src/unnamed/part_000, lines 73-91). -/
def discoverTxCharCCCD (env : AdapterEnv) (nusTxCharacteristic : Attr) :
    Except DiscoveryError Attr :=
  match findAttrByUuid BLE_UUID_CCCD
      (env.getDescriptorsR nusTxCharacteristic.instanceId) with
  | some d => .ok d
  | none => .error .DescriptorNotFound

/-- `handleConnectedDevice` (src/unnamed/part_000, lines 216-249): the three
discovery steps in order; on full success it writes the current
`notificationsEnabled` value to the discovered CCCD (`ack = false`), fatally
on write error; the calls `addUserInputListener` / `addUserPrompt` are
commented out in the source, so no input listener is registered.  Any
discovery failure is caught, logged and `process.exit(1)`.  The notification
state is never modified. -/
def handleConnectedDevice (env : AdapterEnv) (s : Nat × Nat) (device : Attr) :
    (Nat × Nat) × List ProgramOp × Outcome :=
  match discoverNusService env device with
  | .error _ => (s, [ProgramOp.getServices device.instanceId], Outcome.fatal)
  | .ok service =>
    match discoverTxCharacteristic env service with
    | .error _ =>
      (s, [ProgramOp.getServices device.instanceId,
           ProgramOp.getCharacteristics service.instanceId], Outcome.fatal)
    | .ok ch =>
      match discoverTxCharCCCD env ch with
      | .error _ =>
        (s, [ProgramOp.getServices device.instanceId,
             ProgramOp.getCharacteristics service.instanceId,
             ProgramOp.getDescriptors ch.instanceId], Outcome.fatal)
      | .ok d =>
        (s, [ProgramOp.getServices device.instanceId,
             ProgramOp.getCharacteristics service.instanceId,
             ProgramOp.getDescriptors ch.instanceId,
             ProgramOp.writeDescriptorValue d.instanceId [s.1, s.2] false],
          match env.writeDescriptorValueErr with
          | some _ => Outcome.fatal
          | none => Outcome.ok)

/-- The adapter events the UART variant can receive. -/
inductive Event where
  | logMessage (severity : Nat)
  | errorEvent
  | deviceConnected (device : Attr)
  | deviceDisconnected (device : Attr)
  | deviceDiscovered (name : String) (address : String)
  | scanTimedOut
  | characteristicValueChanged (uuid : String)
  | connParamUpdateRequest (device : Attr)
  | connParamUpdate

/-- Event names passed to `adapter.on` in `addAdapterListener`
(src/unnamed/part_000, lines 251-315). -/
def registeredEvents : List String :=
  ["logMessage", "error", "deviceConnected", "deviceDisconnected",
   "deviceDiscovered", "scanTimedOut", "characteristicValueChanged",
   "connParamUpdateRequest", "connParamUpdate"]

/-- Dispatch of one adapter event by the UART variant's listeners
(src/unnamed/part_000, lines 251-315).  `deviceConnected` only logs;
`connParamUpdateRequest` calls `updateConnectionParameters` and, only on
success, runs `handleConnectedDevice`; an update failure is merely logged. -/
def handleEvent (env : AdapterEnv) (s : Nat × Nat) : Event → (Nat × Nat) × List ProgramOp × Outcome
  | .logMessage _ => (s, [], Outcome.ok)
  | .errorEvent => (s, [], Outcome.ok)
  | .deviceConnected _ => (s, [], Outcome.ok)
  | .deviceDisconnected _ => (s, [ProgramOp.startScan scanParameters], Outcome.ok)
  | .deviceDiscovered name address =>
    if name = BLE_DEVICE_NAME then
      (s, [ProgramOp.connect address connectScanParams connectionsPararms],
        match env.connectErr with
        | some _ => Outcome.fatal
        | none => Outcome.ok)
    else (s, [], Outcome.ok)
  | .scanTimedOut => (s, [], Outcome.fatal)
  | .characteristicValueChanged _ => (s, [], Outcome.ok)
  | .connParamUpdateRequest device =>
    match env.updateConnectionParametersErr with
    | some _ =>
      (s, [ProgramOp.updateConnectionParameters device.instanceId], Outcome.ok)
    | none =>
      ((handleConnectedDevice env s device).1,
       ProgramOp.updateConnectionParameters device.instanceId ::
         (handleConnectedDevice env s device).2.1,
       (handleConnectedDevice env s device).2.2)
  | .connParamUpdate => (s, [], Outcome.ok)

/-- Processing of a whole event sequence: one event at a time, strictly
serialized; a `process.exit` (fatal outcome) stops the run. -/
def run (env : AdapterEnv) : (Nat × Nat) → List Event → (Nat × Nat) × List ProgramOp
  | s, [] => (s, [])
  | s, e :: es =>
    match handleEvent env s e with
    | (s', ops, Outcome.fatal) => (s', ops)
    | (s', ops, Outcome.ok) => ((run env s' es).1, ops ++ (run env s' es).2)

end Uart

/-! ## Observable predicates and concrete test environments -/

/-- Whether a program operation is a descriptor write. -/
def isWriteOp : ProgramOp → Bool
  | ProgramOp.writeDescriptorValue _ _ _ => true
  | _ => false

/-- Observable check on one program operation: any descriptor write carries
exactly the value `v` and is unacknowledged, and the operation is not an
input-listener registration. -/
def writeValueOk (v : List Nat) : ProgramOp → Bool
  | ProgramOp.writeDescriptorValue _ val a => val == v && a == false
  | ProgramOp.addUserInputListener _ => false
  | _ => true

def devX : Attr := ⟨1, "EE:FF"⟩

def nusServiceAttr : Attr := ⟨2, Uart.BLE_UUID_NUS_SERVICE⟩

def nusTxCharAttr : Attr := ⟨3, Uart.LBS_UUID_NUS_TX_CHAR⟩

def nusCccdAttr : Attr := ⟨4, BLE_UUID_CCCD⟩

def blinkyServiceAttr : Attr := ⟨2, Blinky.BLE_UUID_BLINKY_SERVICE⟩

def blinkyButtonAttr : Attr := ⟨3, Blinky.LBS_UUID_BLINKY_BUTTON_CHAR⟩

def blinkyCccdAttr : Attr := ⟨4, BLE_UUID_CCCD⟩

/-- Adapter whose attribute table holds exactly the NUS service, TX
characteristic and CCCD, and whose requests all succeed. -/
def envNusOk : AdapterEnv :=
  ⟨fun _ => .ok [nusServiceAttr], fun _ => .ok [nusTxCharAttr],
   fun _ => .ok [nusCccdAttr], none, none, none, none, none⟩

/-- Adapter whose attribute table holds exactly the Blinky service, button
characteristic and CCCD, and whose requests all succeed. -/
def envBlinkyOk : AdapterEnv :=
  ⟨fun _ => .ok [blinkyServiceAttr], fun _ => .ok [blinkyButtonAttr],
   fun _ => .ok [blinkyCccdAttr], none, none, none, none, none⟩

/-- Adapter that reports an error when listing services. -/
def envSvcErr : AdapterEnv :=
  ⟨fun _ => .error "fail", fun _ => .ok [], fun _ => .ok [],
   none, none, none, none, none⟩

/-- Adapter whose service list holds no service with the target UUID. -/
def envNoMatch : AdapterEnv :=
  ⟨fun _ => .ok [⟨9, "DEAD"⟩], fun _ => .ok [], fun _ => .ok [],
   none, none, none, none, none⟩

/-- Adapter that fails when listing characteristics. -/
def envCharErr : AdapterEnv :=
  ⟨fun _ => .ok [blinkyServiceAttr], fun _ => .error "fail", fun _ => .ok [],
   none, none, none, none, none⟩

/-- Adapter that fails when listing descriptors. -/
def envDescErr : AdapterEnv :=
  ⟨fun _ => .ok [blinkyServiceAttr], fun _ => .ok [blinkyButtonAttr],
   fun _ => .error "fail", none, none, none, none, none⟩

/-- Adapter like `envNusOk` but whose `updateConnectionParameters` request
fails. -/
def envUpdErr : AdapterEnv :=
  ⟨fun _ => .ok [nusServiceAttr], fun _ => .ok [nusTxCharAttr],
   fun _ => .ok [nusCccdAttr], none, some "rejected", none, none, none⟩

/-! ## Helper lemmas -/

/-- A successful `find?` returns the first element satisfying the predicate:
the list splits around the hit, with everything before it failing the
predicate. -/
theorem find?_eq_some_first {α : Type} (p : α → Bool) :
    ∀ (l : List α) (a : α), l.find? p = some a →
      p a = true ∧ ∃ l1 l2, l = l1 ++ a :: l2 ∧ ∀ x ∈ l1, p x = false := by
  intro l
  induction l with
  | nil => intro a h; simp [List.find?] at h
  | cons b t ih =>
    intro a h
    by_cases hb : p b
    · rw [List.find?_cons_of_pos _ hb] at h
      cases h
      exact ⟨hb, [], t, rfl, by simp⟩
    · rw [List.find?_cons_of_neg _ hb] at h
      obtain ⟨hpa, l1, l2, hsplit, hall⟩ := ih a h
      refine ⟨hpa, b :: l1, l2, by rw [hsplit]; rfl, ?_⟩
      intro x hx
      rcases List.mem_cons.mp hx with rfl | hx
      · exact Bool.eq_false_iff.mpr hb
      · exact hall x hx

/-- `handleConnectedDevice` never changes the notification state. -/
theorem uart_handleConnectedDevice_state (env : AdapterEnv) (s : Nat × Nat) (device : Attr) :
    (Uart.handleConnectedDevice env s device).1 = s := by
  unfold Uart.handleConnectedDevice
  split
  · rfl
  · split
    · rfl
    · split
      · rfl
      · rfl

/-- Every descriptor write issued by `handleConnectedDevice` carries the
current notification state, unacknowledged, and no input listener is
registered. -/
theorem uart_handleConnectedDevice_writes (env : AdapterEnv) (s : Nat × Nat) (device : Attr) :
    ((Uart.handleConnectedDevice env s device).2.1).all (writeValueOk [s.1, s.2]) = true := by
  unfold Uart.handleConnectedDevice
  split
  · rfl
  · split
    · rfl
    · split
      · rfl
      · simp [writeValueOk]

/-- No UART event handler ever changes the notification state. -/
theorem uart_handleEvent_state (env : AdapterEnv) (s : Nat × Nat) (e : Uart.Event) :
    (Uart.handleEvent env s e).1 = s := by
  cases e with
  | deviceDiscovered name address =>
    simp only [Uart.handleEvent]
    split <;> rfl
  | connParamUpdateRequest device =>
    simp only [Uart.handleEvent]
    split
    · rfl
    · exact uart_handleConnectedDevice_state env s device
  | _ => rfl

/-- Every operation a UART event handler issues from the initial state is
either a non-write or a write of `[1, 0]` with `ack = false`, and is never an
input-listener registration. -/
theorem uart_handleEvent_writes (env : AdapterEnv) (e : Uart.Event) :
    ((Uart.handleEvent env Uart.notificationsEnabled e).2.1).all (writeValueOk [1, 0]) = true := by
  cases e with
  | deviceDiscovered name address =>
    simp only [Uart.handleEvent]
    split <;> rfl
  | connParamUpdateRequest device =>
    simp only [Uart.handleEvent]
    split
    · rfl
    · have h := uart_handleConnectedDevice_writes env Uart.notificationsEnabled device
      simpa [writeValueOk] using h
  | _ => rfl

/-! ## Claims -/

/-- Claim C1, counterexample: with an adapter on which the full NUS discovery
pipeline would succeed, the UART variant's `deviceConnected` handler performs
no operation at all — in particular it does not invoke the discovery
pipeline — and the Blinky variant's `deviceConnected` handler, although it
does run discovery, issues no CCCD write on success. -/
theorem C1_deviceConnected_counterexample :
    Uart.handleEvent envNusOk Uart.notificationsEnabled (Uart.Event.deviceConnected devX) =
      (Uart.notificationsEnabled, [], Outcome.ok) ∧
    ((Blinky.deviceConnectedHandler envBlinkyOk devX).1).all (fun op => !isWriteOp op) = true ∧
    (Blinky.deviceConnectedHandler envBlinkyOk devX).2 = Outcome.ok := by
  refine ⟨rfl, ?_, ?_⟩ <;> decide

/-- Claim C1 (amended): on `deviceConnected` the Blinky variant immediately
invokes the Discovery Pipeline and, on full success, registers the operator
input listener with a fresh disabled notification state, issuing no CCCD
write; the UART variant's `deviceConnected` handler only logs, and the
Discovery Pipeline followed by a write of the current NotificationState
(initialized to enabled, `[1, 0]`) runs instead from the
`connParamUpdateRequest` handler after a successful parameter-update
accept. -/
theorem C1_connected_discovery_behavior :
    (∀ (env : AdapterEnv) (device : Attr), ∃ rest,
      (Blinky.deviceConnectedHandler env device).1 =
        ProgramOp.getServices device.instanceId :: rest) ∧
    (∀ (env : AdapterEnv) (device svc ch d : Attr),
      Blinky.discoverBlinkyService env device = Except.ok svc →
      Blinky.discoverButtonCharacteristic env svc = Except.ok ch →
      Blinky.discoverButtonCharCCCD env ch = Except.ok d →
      Blinky.deviceConnectedHandler env device =
        ([ProgramOp.getServices device.instanceId,
          ProgramOp.getCharacteristics svc.instanceId,
          ProgramOp.getDescriptors ch.instanceId,
          ProgramOp.addUserInputListener d.instanceId], Outcome.ok)) ∧
    Blinky.notificationsEnabled = (0, 0) ∧
    (∀ (env : AdapterEnv) (s : Nat × Nat) (device : Attr),
      Uart.handleEvent env s (Uart.Event.deviceConnected device) = (s, [], Outcome.ok)) ∧
    Uart.notificationsEnabled = (1, 0) ∧
    (∀ (env : AdapterEnv) (s : Nat × Nat) (device svc ch d : Attr),
      env.updateConnectionParametersErr = none →
      Uart.discoverNusService env device = Except.ok svc →
      Uart.discoverTxCharacteristic env svc = Except.ok ch →
      Uart.discoverTxCharCCCD env ch = Except.ok d →
      (Uart.handleEvent env s (Uart.Event.connParamUpdateRequest device)).2.1 =
        [ProgramOp.updateConnectionParameters device.instanceId,
         ProgramOp.getServices device.instanceId,
         ProgramOp.getCharacteristics svc.instanceId,
         ProgramOp.getDescriptors ch.instanceId,
         ProgramOp.writeDescriptorValue d.instanceId [s.1, s.2] false]) := by
  refine ⟨?_, ?_, rfl, ?_, rfl, ?_⟩
  · intro env device
    unfold Blinky.deviceConnectedHandler
    split
    · exact ⟨[], rfl⟩
    · split
      · exact ⟨_, rfl⟩
      · split
        · exact ⟨_, rfl⟩
        · exact ⟨_, rfl⟩
  · intro env device svc ch d h1 h2 h3
    unfold Blinky.deviceConnectedHandler
    simp only [h1, h2, h3]
  · intro env s device
    rfl
  · intro env s device svc ch d hu h1 h2 h3
    simp only [Uart.handleEvent, hu]
    unfold Uart.handleConnectedDevice
    simp only [h1, h2, h3]

/-- Claim C1, witness: the amended behavior at a concrete adapter — the
Blinky success trace ends in a listener registration, and the UART
parameter-update trace ends in the `[1, 0]` CCCD write. -/
theorem C1_connected_discovery_behavior_witness :
    Blinky.deviceConnectedHandler envBlinkyOk devX =
      ([ProgramOp.getServices 1, ProgramOp.getCharacteristics 2,
        ProgramOp.getDescriptors 3, ProgramOp.addUserInputListener 4], Outcome.ok) ∧
    (Uart.handleEvent envNusOk Uart.notificationsEnabled
        (Uart.Event.connParamUpdateRequest devX)).2.1 =
      [ProgramOp.updateConnectionParameters 1, ProgramOp.getServices 1,
       ProgramOp.getCharacteristics 2, ProgramOp.getDescriptors 3,
       ProgramOp.writeDescriptorValue 4 [1, 0] false] :=
  ⟨C1_connected_discovery_behavior.2.1 envBlinkyOk devX blinkyServiceAttr blinkyButtonAttr
      blinkyCccdAttr rfl rfl rfl,
   C1_connected_discovery_behavior.2.2.2.2.2 envNusOk Uart.notificationsEnabled devX
      nusServiceAttr nusTxCharAttr nusCccdAttr rfl rfl rfl rfl⟩

/-- Claim C2, counterexample: the Blinky variant registers no handler for the
`connParamUpdateRequest` event at all (the UART variant does), so it cannot
call the parameter-update-accept operation on that event. -/
theorem C2_counterexample_blinky_unregistered :
    Blinky.registeredEvents.contains "connParamUpdateRequest" = false ∧
    Uart.registeredEvents.contains "connParamUpdateRequest" = true :=
  ⟨rfl, rfl⟩

/-- Claim C2 (amended): only the UART variant registers a handler for
`connParamUpdateRequest`.  There, the handler calls the adapter's
parameter-update-accept operation; if the call fails, the failure is only
logged and the session continues unchanged in its current phase (non-fatal);
if it succeeds, any descriptor write the handler issues comes only after the
full discovery pipeline (service → characteristic → descriptor) has run
again. -/
theorem C2_connParamUpdateRequest_behavior :
    ("connParamUpdateRequest" ∈ Uart.registeredEvents ∧
     "connParamUpdateRequest" ∉ Blinky.registeredEvents) ∧
    (∀ (env : AdapterEnv) (s : Nat × Nat) (device : Attr) (e : String),
      env.updateConnectionParametersErr = some e →
      Uart.handleEvent env s (Uart.Event.connParamUpdateRequest device) =
        (s, [ProgramOp.updateConnectionParameters device.instanceId], Outcome.ok)) ∧
    (∀ (env : AdapterEnv) (s : Nat × Nat) (device : Attr) (i : Nat) (v : List Nat) (a : Bool),
      env.updateConnectionParametersErr = none →
      ProgramOp.writeDescriptorValue i v a ∈
        (Uart.handleEvent env s (Uart.Event.connParamUpdateRequest device)).2.1 →
      ∃ svc ch d,
        Uart.discoverNusService env device = Except.ok svc ∧
        Uart.discoverTxCharacteristic env svc = Except.ok ch ∧
        Uart.discoverTxCharCCCD env ch = Except.ok d ∧
        (Uart.handleEvent env s (Uart.Event.connParamUpdateRequest device)).2.1 =
          [ProgramOp.updateConnectionParameters device.instanceId,
           ProgramOp.getServices device.instanceId,
           ProgramOp.getCharacteristics svc.instanceId,
           ProgramOp.getDescriptors ch.instanceId,
           ProgramOp.writeDescriptorValue d.instanceId [s.1, s.2] false] ∧
        i = d.instanceId ∧ v = [s.1, s.2] ∧ a = false) := by
  refine ⟨⟨by decide, by decide⟩, ?_, ?_⟩
  · intro env s device e hu
    simp only [Uart.handleEvent, hu]
  · intro env s device i v a hu hmem
    simp only [Uart.handleEvent, hu] at hmem ⊢
    unfold Uart.handleConnectedDevice at hmem ⊢
    rcases h1 : Uart.discoverNusService env device with e1 | svc <;>
      simp only [h1] at hmem ⊢
    · simp at hmem
    · rcases h2 : Uart.discoverTxCharacteristic env svc with e2 | ch <;>
        simp only [h2] at hmem ⊢
      · simp at hmem
      · rcases h3 : Uart.discoverTxCharCCCD env ch with e3 | d <;>
          simp only [h3] at hmem ⊢
        · simp at hmem
        · simp only [List.mem_cons, List.not_mem_nil, or_false] at hmem
          refine ⟨svc, ch, d, rfl, h2, h3, rfl, ?_⟩
          rcases hmem with h | h | h | h | h
          · exact absurd h (by simp)
          · exact absurd h (by simp)
          · exact absurd h (by simp)
          · exact absurd h (by simp)
          · simp only [ProgramOp.writeDescriptorValue.injEq] at h
            exact h

/-- Claim C2, witness: on a rejected parameter update the UART session keeps
its state with a single adapter call; on an accepted one the full discovery
pipeline precedes the single CCCD write. -/
theorem C2_connParamUpdateRequest_behavior_witness :
    Uart.handleEvent envUpdErr Uart.notificationsEnabled
        (Uart.Event.connParamUpdateRequest devX) =
      (Uart.notificationsEnabled, [ProgramOp.updateConnectionParameters 1], Outcome.ok) ∧
    (Uart.handleEvent envNusOk Uart.notificationsEnabled
        (Uart.Event.connParamUpdateRequest devX)).2.1 =
      [ProgramOp.updateConnectionParameters 1, ProgramOp.getServices 1,
       ProgramOp.getCharacteristics 2, ProgramOp.getDescriptors 3,
       ProgramOp.writeDescriptorValue 4 [1, 0] false] := by
  constructor
  · exact C2_connParamUpdateRequest_behavior.2.1 envUpdErr Uart.notificationsEnabled devX
      "rejected" rfl
  · obtain ⟨svc, ch, d, h1, h2, h3, h4, h5, h6, h7⟩ :=
      C2_connParamUpdateRequest_behavior.2.2 envNusOk Uart.notificationsEnabled devX
        4 [1, 0] false rfl (by decide)
    have hsvc : nusServiceAttr = svc := Except.ok.inj h1
    have hch : nusTxCharAttr = ch := Except.ok.inj (hsvc ▸ h2)
    have hd : nusCccdAttr = d := Except.ok.inj (hch ▸ h3)
    rw [h4, ← hsvc, ← hch, ← hd]
    rfl

/-- Claim C3, counterexample: the connect request the Blinky variant issues
for the advertised name `Nordic_Blinky` carries only the legacy field names;
the current name `minConnectionInterval` is absent from its connection
parameters. -/
theorem C3_counterexample_blinky_legacy_only :
    (Blinky.handleEvent envBlinkyOk (Blinky.Event.deviceDiscovered "Nordic_Blinky" "EE:FF")).1 =
      [ProgramOp.connect "EE:FF" Blinky.connectScanParams Blinky.connParams] ∧
    (Blinky.connParams.map Prod.fst).contains "minConnectionInterval" = false :=
  ⟨rfl, rfl⟩

/-- Claim C3 (amended): only the UART variant's connect requests carry both
the legacy and the current field names, and there the two representations
carry the same numeric values; the Blinky variant's connect requests carry
the legacy field names only. -/
theorem C3_connection_parameters_amended :
    (∀ (env : AdapterEnv) (s : Nat × Nat) (address : String),
      (Uart.handleEvent env s (Uart.Event.deviceDiscovered Uart.BLE_DEVICE_NAME address)).2.1 =
        [ProgramOp.connect address Uart.connectScanParams Uart.connectionsPararms]) ∧
    Uart.connectionsPararms.lookup "min_conn_interval" =
      Uart.connectionsPararms.lookup "minConnectionInterval" ∧
    Uart.connectionsPararms.lookup "max_conn_interval" =
      Uart.connectionsPararms.lookup "maxConnectionInterval" ∧
    Uart.connectionsPararms.lookup "slave_latency" =
      Uart.connectionsPararms.lookup "slaveLatency" ∧
    Uart.connectionsPararms.lookup "conn_sup_timeout" =
      Uart.connectionsPararms.lookup "connectionSupervisionTimeout" ∧
    Uart.connectionsPararms.lookup "min_conn_interval" = some ((15 : ℚ)/2) ∧
    (∀ (env : AdapterEnv) (address : String),
      (Blinky.handleEvent env (Blinky.Event.deviceDiscovered "Nordic_Blinky" address)).1 =
        [ProgramOp.connect address Blinky.connectScanParams Blinky.connParams]) ∧
    (Blinky.connParams.map Prod.fst).contains "min_conn_interval" = true ∧
    (Blinky.connParams.map Prod.fst).contains "max_conn_interval" = true ∧
    (Blinky.connParams.map Prod.fst).contains "slave_latency" = true ∧
    (Blinky.connParams.map Prod.fst).contains "conn_sup_timeout" = true ∧
    (Blinky.connParams.map Prod.fst).contains "minConnectionInterval" = false ∧
    (Blinky.connParams.map Prod.fst).contains "maxConnectionInterval" = false ∧
    (Blinky.connParams.map Prod.fst).contains "slaveLatency" = false ∧
    (Blinky.connParams.map Prod.fst).contains "connectionSupervisionTimeout" = false := by
  refine ⟨fun env s address => rfl, rfl, rfl, rfl, rfl, rfl,
    fun env address => rfl, rfl, rfl, rfl, rfl, rfl, rfl, rfl, rfl⟩

/-- Claim C4: from either legal notification state, two consecutive
toggle keystrokes (any keys other than `q`/`Q`/`l`/`L`) return the state to
its original value and issue exactly two complementary unacknowledged
byte-pair writes, `[1, 0]` then `[0, 0]` or vice versa. -/
theorem C4_toggle_double_flip (env : AdapterEnv) (descId : Nat) (s : Nat × Nat)
    (c1 c2 : Char)
    (hw : env.writeDescriptorValueErr = none)
    (hs : s = (0, 0) ∨ s = (1, 0))
    (h1q : ¬(c1 = 'q' ∨ c1 = 'Q')) (h1l : ¬(c1 = 'l' ∨ c1 = 'L'))
    (h2q : ¬(c2 = 'q' ∨ c2 = 'Q')) (h2l : ¬(c2 = 'l' ∨ c2 = 'L')) :
    (Blinky.keystroke env descId s c1).2.2 = Outcome.ok ∧
    (Blinky.keystroke env descId ((Blinky.keystroke env descId s c1).1) c2).1 = s ∧
    ((Blinky.keystroke env descId s c1).2.1 ++
       (Blinky.keystroke env descId ((Blinky.keystroke env descId s c1).1) c2).2.1 =
         [ProgramOp.writeDescriptorValue descId [1, 0] false,
          ProgramOp.writeDescriptorValue descId [0, 0] false] ∨
     (Blinky.keystroke env descId s c1).2.1 ++
       (Blinky.keystroke env descId ((Blinky.keystroke env descId s c1).1) c2).2.1 =
         [ProgramOp.writeDescriptorValue descId [0, 0] false,
          ProgramOp.writeDescriptorValue descId [1, 0] false]) := by
  rcases hs with rfl | rfl
  · refine ⟨?_, ?_, Or.inl ?_⟩ <;>
      simp [Blinky.keystroke, toggleAndWrite, h1q, h1l, h2q, h2l, hw]
  · refine ⟨?_, ?_, Or.inr ?_⟩ <;>
      simp [Blinky.keystroke, toggleAndWrite, h1q, h1l, h2q, h2l, hw]

/-- Claim C4, witness: two keystrokes `x` then `y` from the fresh disabled
state write `[1, 0]` then `[0, 0]` and end where they started. -/
theorem C4_toggle_double_flip_witness :
    (Blinky.keystroke envBlinkyOk 4 (0, 0) 'x').2.2 = Outcome.ok ∧
    (Blinky.keystroke envBlinkyOk 4 ((Blinky.keystroke envBlinkyOk 4 (0, 0) 'x').1) 'y').1 =
      (0, 0) ∧
    ((Blinky.keystroke envBlinkyOk 4 (0, 0) 'x').2.1 ++
       (Blinky.keystroke envBlinkyOk 4 ((Blinky.keystroke envBlinkyOk 4 (0, 0) 'x').1) 'y').2.1 =
         [ProgramOp.writeDescriptorValue 4 [1, 0] false,
          ProgramOp.writeDescriptorValue 4 [0, 0] false] ∨
     (Blinky.keystroke envBlinkyOk 4 (0, 0) 'x').2.1 ++
       (Blinky.keystroke envBlinkyOk 4 ((Blinky.keystroke envBlinkyOk 4 (0, 0) 'x').1) 'y').2.1 =
         [ProgramOp.writeDescriptorValue 4 [0, 0] false,
          ProgramOp.writeDescriptorValue 4 [1, 0] false]) :=
  C4_toggle_double_flip envBlinkyOk 4 (0, 0) 'x' 'y' rfl (Or.inl rfl)
    (by decide) (by decide) (by decide) (by decide)

/-- Claim C5: when the adapter errors on `getServices` or no service carries
the target UUID, discovery yields `ServiceNotFound`, the session is fatal,
and `getCharacteristics` is never called; a found service is the first match
in adapter order; a failure at the characteristic or descriptor step aborts
the pipeline right there (no retries) and is fatal — shown for the Blinky
pipeline and, for the service level, the UART pipeline too. -/
theorem C5_discovery_pipeline :
    (∀ (env : AdapterEnv) (device : Attr) (e : String),
      env.getServicesR device.instanceId = Except.error e →
      Blinky.discoverBlinkyService env device = Except.error DiscoveryError.ServiceNotFound ∧
      Blinky.deviceConnectedHandler env device =
        ([ProgramOp.getServices device.instanceId], Outcome.fatal) ∧
      ∀ i, ProgramOp.getCharacteristics i ∉ (Blinky.deviceConnectedHandler env device).1) ∧
    (∀ (env : AdapterEnv) (device : Attr) (l : List Attr),
      env.getServicesR device.instanceId = Except.ok l →
      l.find? (fun a => a.uuid == Blinky.BLE_UUID_BLINKY_SERVICE) = none →
      Blinky.discoverBlinkyService env device = Except.error DiscoveryError.ServiceNotFound ∧
      Blinky.deviceConnectedHandler env device =
        ([ProgramOp.getServices device.instanceId], Outcome.fatal) ∧
      ∀ i, ProgramOp.getCharacteristics i ∉ (Blinky.deviceConnectedHandler env device).1) ∧
    (∀ (env : AdapterEnv) (device svc : Attr),
      Blinky.discoverBlinkyService env device = Except.ok svc →
      svc.uuid = Blinky.BLE_UUID_BLINKY_SERVICE ∧
      ∃ l l1 l2, env.getServicesR device.instanceId = Except.ok l ∧
        l = l1 ++ svc :: l2 ∧ ∀ x ∈ l1, x.uuid ≠ Blinky.BLE_UUID_BLINKY_SERVICE) ∧
    (∀ (env : AdapterEnv) (device svc : Attr) (e : DiscoveryError),
      Blinky.discoverBlinkyService env device = Except.ok svc →
      Blinky.discoverButtonCharacteristic env svc = Except.error e →
      Blinky.deviceConnectedHandler env device =
        ([ProgramOp.getServices device.instanceId,
          ProgramOp.getCharacteristics svc.instanceId], Outcome.fatal)) ∧
    (∀ (env : AdapterEnv) (device svc ch : Attr) (e : DiscoveryError),
      Blinky.discoverBlinkyService env device = Except.ok svc →
      Blinky.discoverButtonCharacteristic env svc = Except.ok ch →
      Blinky.discoverButtonCharCCCD env ch = Except.error e →
      Blinky.deviceConnectedHandler env device =
        ([ProgramOp.getServices device.instanceId,
          ProgramOp.getCharacteristics svc.instanceId,
          ProgramOp.getDescriptors ch.instanceId], Outcome.fatal)) ∧
    (∀ (env : AdapterEnv) (s : Nat × Nat) (device : Attr) (e : String),
      env.getServicesR device.instanceId = Except.error e →
      Uart.discoverNusService env device = Except.error DiscoveryError.ServiceNotFound ∧
      Uart.handleConnectedDevice env s device =
        (s, [ProgramOp.getServices device.instanceId], Outcome.fatal)) := by
  refine ⟨?_, ?_, ?_, ?_, ?_, ?_⟩
  · intro env device e h
    have hd : Blinky.discoverBlinkyService env device =
        Except.error DiscoveryError.ServiceNotFound := by
      simp only [Blinky.discoverBlinkyService, findAttrByUuid, h]
    have hh : Blinky.deviceConnectedHandler env device =
        ([ProgramOp.getServices device.instanceId], Outcome.fatal) := by
      unfold Blinky.deviceConnectedHandler
      simp only [hd]
    refine ⟨hd, hh, ?_⟩
    intro i
    rw [hh]
    simp
  · intro env device l h hf
    have hd : Blinky.discoverBlinkyService env device =
        Except.error DiscoveryError.ServiceNotFound := by
      simp only [Blinky.discoverBlinkyService, findAttrByUuid, h, hf]
    have hh : Blinky.deviceConnectedHandler env device =
        ([ProgramOp.getServices device.instanceId], Outcome.fatal) := by
      unfold Blinky.deviceConnectedHandler
      simp only [hd]
    refine ⟨hd, hh, ?_⟩
    intro i
    rw [hh]
    simp
  · intro env device svc h
    unfold Blinky.discoverBlinkyService findAttrByUuid at h
    rcases hg : env.getServicesR device.instanceId with e | l
    · simp only [hg] at h
      exact Except.noConfusion h
    · simp only [hg] at h
      rcases hf : l.find? (fun a => a.uuid == Blinky.BLE_UUID_BLINKY_SERVICE) with _ | a
      · simp only [hf] at h
        exact Except.noConfusion h
      · simp only [hf] at h
        have ha : a = svc := Except.ok.inj h
        subst ha
        obtain ⟨hp, l1, l2, hsplit, hall⟩ := find?_eq_some_first _ l a hf
        refine ⟨by simpa using hp, l, l1, l2, rfl, hsplit, ?_⟩
        intro x hx hEq
        have hfx := hall x hx
        rw [hEq] at hfx
        simp at hfx
  · intro env device svc e h1 h2
    unfold Blinky.deviceConnectedHandler
    simp only [h1, h2]
  · intro env device svc ch e h1 h2 h3
    unfold Blinky.deviceConnectedHandler
    simp only [h1, h2, h3]
  · intro env s device e h
    have hd : Uart.discoverNusService env device =
        Except.error DiscoveryError.ServiceNotFound := by
      simp only [Uart.discoverNusService, findAttrByUuid, h]
    refine ⟨hd, ?_⟩
    unfold Uart.handleConnectedDevice
    simp only [hd]

/-- Claim C5, witness: the service-error, no-match, first-match and
mid-pipeline-failure cases at concrete adapters. -/
theorem C5_discovery_pipeline_witness :
    Blinky.discoverBlinkyService envSvcErr devX = Except.error DiscoveryError.ServiceNotFound ∧
    Blinky.deviceConnectedHandler envNoMatch devX =
      ([ProgramOp.getServices 1], Outcome.fatal) ∧
    blinkyServiceAttr.uuid = Blinky.BLE_UUID_BLINKY_SERVICE ∧
    Blinky.deviceConnectedHandler envCharErr devX =
      ([ProgramOp.getServices 1, ProgramOp.getCharacteristics 2], Outcome.fatal) ∧
    Blinky.deviceConnectedHandler envDescErr devX =
      ([ProgramOp.getServices 1, ProgramOp.getCharacteristics 2,
        ProgramOp.getDescriptors 3], Outcome.fatal) ∧
    Uart.handleConnectedDevice envSvcErr Uart.notificationsEnabled devX =
      (Uart.notificationsEnabled, [ProgramOp.getServices 1], Outcome.fatal) :=
  ⟨(C5_discovery_pipeline.1 envSvcErr devX "fail" rfl).1,
   (C5_discovery_pipeline.2.1 envNoMatch devX [⟨9, "DEAD"⟩] rfl rfl).2.1,
   (C5_discovery_pipeline.2.2.1 envBlinkyOk devX blinkyServiceAttr rfl).1,
   C5_discovery_pipeline.2.2.2.1 envCharErr devX blinkyServiceAttr
     DiscoveryError.CharacteristicNotFound rfl rfl,
   C5_discovery_pipeline.2.2.2.2.1 envDescErr devX blinkyServiceAttr blinkyButtonAttr
     DiscoveryError.DescriptorNotFound rfl rfl rfl,
   (C5_discovery_pipeline.2.2.2.2.2 envSvcErr Uart.notificationsEnabled devX "fail" rfl).2⟩

/-- Claim C6: in both variants a `deviceDisconnected` event issues exactly
one `startScan` request — with the same parameters as the initial scan —
and nothing else; the result of that request does not change the outcome
(errors are only logged, no retry, non-fatal) since the handler's result is
the same for every adapter environment. -/
theorem C6_disconnect_single_rescan :
    (∀ (env : AdapterEnv) (s : Nat × Nat) (device : Attr),
      Uart.handleEvent env s (Uart.Event.deviceDisconnected device) =
        (s, [ProgramOp.startScan Uart.scanParameters], Outcome.ok)) ∧
    (∀ (env : AdapterEnv) (device : Attr),
      Blinky.handleEvent env (Blinky.Event.deviceDisconnected device) =
        ([ProgramOp.startScan Blinky.scanParameters], Outcome.ok)) ∧
    Uart.scanParameters = ⟨true, 100, 50, 0⟩ ∧
    Blinky.scanParameters = ⟨true, 100, 50, 0⟩ :=
  ⟨fun _ _ _ => rfl, fun _ _ => rfl, rfl, rfl⟩

/-- Claim C7: applying the default-subscription write (the CCCD write of
`handleConnectedDevice`) twice in a row without an intervening toggle leaves
the notification state unchanged at the enabled value `(1, 0)` and issues a
second descriptor write identical to the first. -/
theorem C7_applyDefault_idempotent (env : AdapterEnv) (device svc ch d : Attr)
    (h1 : Uart.discoverNusService env device = Except.ok svc)
    (h2 : Uart.discoverTxCharacteristic env svc = Except.ok ch)
    (h3 : Uart.discoverTxCharCCCD env ch = Except.ok d)
    (hw : env.writeDescriptorValueErr = none) :
    (Uart.handleConnectedDevice env Uart.notificationsEnabled device).1 =
      Uart.notificationsEnabled ∧
    Uart.notificationsEnabled = (1, 0) ∧
    (Uart.handleConnectedDevice env Uart.notificationsEnabled device).2.2 = Outcome.ok ∧
    ((Uart.handleConnectedDevice env Uart.notificationsEnabled device).2.1).filter isWriteOp =
      [ProgramOp.writeDescriptorValue d.instanceId [1, 0] false] ∧
    Uart.handleConnectedDevice env
        ((Uart.handleConnectedDevice env Uart.notificationsEnabled device).1) device =
      Uart.handleConnectedDevice env Uart.notificationsEnabled device := by
  have hstate := uart_handleConnectedDevice_state env Uart.notificationsEnabled device
  refine ⟨hstate, rfl, ?_, ?_, by rw [hstate]⟩
  · unfold Uart.handleConnectedDevice
    simp only [h1, h2, h3, hw]
  · unfold Uart.handleConnectedDevice
    simp only [h1, h2, h3]
    simp [isWriteOp, List.filter, Uart.notificationsEnabled]

/-- Claim C7, witness: the double application at the concrete NUS adapter. -/
theorem C7_applyDefault_idempotent_witness :
    (Uart.handleConnectedDevice envNusOk Uart.notificationsEnabled devX).1 =
      Uart.notificationsEnabled ∧
    ((Uart.handleConnectedDevice envNusOk Uart.notificationsEnabled devX).2.1).filter isWriteOp =
      [ProgramOp.writeDescriptorValue 4 [1, 0] false] ∧
    Uart.handleConnectedDevice envNusOk
        ((Uart.handleConnectedDevice envNusOk Uart.notificationsEnabled devX).1) devX =
      Uart.handleConnectedDevice envNusOk Uart.notificationsEnabled devX := by
  obtain ⟨ha, hb, hc, hd, he⟩ := C7_applyDefault_idempotent envNusOk devX nusServiceAttr
    nusTxCharAttr nusCccdAttr rfl rfl rfl rfl
  exact ⟨ha, hd, he⟩

/-- Claim C8: in both variants, every scan request (initial and rescan)
carries `{active: true, interval: 100, window: 50, timeout: 0}` and every
connect request carries the fixed scan parameters
`{active: false, interval: 100, window: 50, timeout: 0}` together with the
profile's connection parameters. -/
theorem C8_fixed_scan_and_connect_params :
    Uart.scanParameters = ⟨true, 100, 50, 0⟩ ∧
    Blinky.scanParameters = ⟨true, 100, 50, 0⟩ ∧
    Uart.connectScanParams = ⟨false, 100, 50, 0⟩ ∧
    Blinky.connectScanParams = ⟨false, 100, 50, 0⟩ ∧
    (∀ (env : AdapterEnv) (s : Nat × Nat) (address : String),
      (Uart.handleEvent env s (Uart.Event.deviceDiscovered Uart.BLE_DEVICE_NAME address)).2.1 =
        [ProgramOp.connect address ⟨false, 100, 50, 0⟩ Uart.connectionsPararms]) ∧
    (∀ (env : AdapterEnv) (address : String),
      (Blinky.handleEvent env (Blinky.Event.deviceDiscovered "Nordic_Blinky" address)).1 =
        [ProgramOp.connect address ⟨false, 100, 50, 0⟩ Blinky.connParams]) ∧
    (∀ (env : AdapterEnv) (s : Nat × Nat) (device : Attr),
      (Uart.handleEvent env s (Uart.Event.deviceDisconnected device)).2.1 =
        [ProgramOp.startScan ⟨true, 100, 50, 0⟩]) ∧
    (∀ (env : AdapterEnv) (device : Attr),
      (Blinky.handleEvent env (Blinky.Event.deviceDisconnected device)).1 =
        [ProgramOp.startScan ⟨true, 100, 50, 0⟩]) :=
  ⟨rfl, rfl, rfl, rfl, fun _ _ _ => rfl, fun _ _ => rfl, fun _ _ _ => rfl, fun _ _ => rfl⟩

/-- Claim C9: over any adapter environment and any event sequence, the UART
variant's notification state stays at its initial `(1, 0)` (no toggle or
quit listener is ever registered and no handler mutates it), so every CCCD
descriptor write ever issued carries the value `[1, 0]`, unacknowledged. -/
theorem C9_uart_writes_constant (env : AdapterEnv) (events : List Uart.Event) :
    (Uart.run env Uart.notificationsEnabled events).1 = (1, 0) ∧
    ((Uart.run env Uart.notificationsEnabled events).2).all (writeValueOk [1, 0]) = true := by
  induction events with
  | nil => exact ⟨rfl, rfl⟩
  | cons e es ih =>
    have hstate := uart_handleEvent_state env Uart.notificationsEnabled e
    have hwrites := uart_handleEvent_writes env e
    rcases hE : Uart.handleEvent env Uart.notificationsEnabled e with ⟨s', ops, oc⟩
    rw [hE] at hstate hwrites
    have hs' : s' = Uart.notificationsEnabled := hstate
    have hops : ops.all (writeValueOk [1, 0]) = true := hwrites
    subst hs'
    cases oc with
    | fatal =>
      refine ⟨?_, ?_⟩ <;> simp only [Uart.run, hE]
      · rfl
      · exact hops
    | ok =>
      refine ⟨?_, ?_⟩ <;> simp only [Uart.run, hE]
      · exact ih.1
      · show (ops ++ (Uart.run env Uart.notificationsEnabled es).2).all
          (writeValueOk [1, 0]) = true
        rw [List.all_append, hops, ih.2]
        rfl

/-- Claim C10: in the Blinky input listener, `l`/`L` keystrokes are complete
no-ops (no adapter operation, state unchanged, process lives on); `q`/`Q`
closes and exits; any other keystroke flips the notification state and
issues the corresponding unacknowledged CCCD write. -/
theorem C10_blinky_l_key_noop (env : AdapterEnv) (descId : Nat) (s : Nat × Nat) (c : Char) :
    ((c = 'l' ∨ c = 'L') → Blinky.keystroke env descId s c = (s, [], Outcome.ok)) ∧
    ((c = 'q' ∨ c = 'Q') → Blinky.keystroke env descId s c =
      (s, [ProgramOp.close], Outcome.fatal)) ∧
    (¬(c = 'q' ∨ c = 'Q') → ¬(c = 'l' ∨ c = 'L') → s = (0, 0) →
      (Blinky.keystroke env descId s c).1 = (1, 0) ∧
      (Blinky.keystroke env descId s c).2.1 =
        [ProgramOp.writeDescriptorValue descId [1, 0] false]) ∧
    (¬(c = 'q' ∨ c = 'Q') → ¬(c = 'l' ∨ c = 'L') → s = (1, 0) →
      (Blinky.keystroke env descId s c).1 = (0, 0) ∧
      (Blinky.keystroke env descId s c).2.1 =
        [ProgramOp.writeDescriptorValue descId [0, 0] false]) := by
  refine ⟨?_, ?_, ?_, ?_⟩
  · intro hl
    have hq : ¬(c = 'q' ∨ c = 'Q') := by
      rcases hl with rfl | rfl <;> decide
    simp [Blinky.keystroke, hq, hl]
  · intro hq
    simp [Blinky.keystroke, hq]
  · intro hq hl hs
    subst hs
    constructor <;> simp [Blinky.keystroke, toggleAndWrite, hq, hl]
  · intro hq hl hs
    subst hs
    constructor <;> simp [Blinky.keystroke, toggleAndWrite, hq, hl]

/-- Claim C10, witness: `l`, `L`, `q` and an ordinary key at concrete
states. -/
theorem C10_blinky_l_key_noop_witness :
    Blinky.keystroke envBlinkyOk 4 (0, 0) 'l' = ((0, 0), [], Outcome.ok) ∧
    Blinky.keystroke envBlinkyOk 4 (0, 0) 'L' = ((0, 0), [], Outcome.ok) ∧
    Blinky.keystroke envBlinkyOk 4 (0, 0) 'q' = ((0, 0), [ProgramOp.close], Outcome.fatal) ∧
    (Blinky.keystroke envBlinkyOk 4 (0, 0) 'x').1 = (1, 0) ∧
    (Blinky.keystroke envBlinkyOk 4 (0, 0) 'x').2.1 =
      [ProgramOp.writeDescriptorValue 4 [1, 0] false] ∧
    (Blinky.keystroke envBlinkyOk 4 (1, 0) 'x').2.1 =
      [ProgramOp.writeDescriptorValue 4 [0, 0] false] :=
  ⟨(C10_blinky_l_key_noop envBlinkyOk 4 (0, 0) 'l').1 (Or.inl rfl),
   (C10_blinky_l_key_noop envBlinkyOk 4 (0, 0) 'L').1 (Or.inr rfl),
   (C10_blinky_l_key_noop envBlinkyOk 4 (0, 0) 'q').2.1 (Or.inl rfl),
   ((C10_blinky_l_key_noop envBlinkyOk 4 (0, 0) 'x').2.2.1 (by decide) (by decide) rfl).1,
   ((C10_blinky_l_key_noop envBlinkyOk 4 (0, 0) 'x').2.2.1 (by decide) (by decide) rfl).2,
   ((C10_blinky_l_key_noop envBlinkyOk 4 (1, 0) 'x').2.2.2 (by decide) (by decide) rfl).2⟩
